import Mathlib

/-!
Verification development for the audio-reactive visualization renderers
(KaleidoscopeRenderer and ChemicalOrbitalsRenderer).

Modelling conventions (shallow embedding of the TypeScript source):
  * JavaScript numbers are modelled as exact rationals.  A value of type
    JsQ (= Option ℚ) is `some q` for a finite number and `none` for a
    non-finite value (NaN or an infinity).  Arithmetic propagates `none`;
    every comparison involving `none` is `false`, exactly as every
    JavaScript comparison involving NaN is false.  Division by zero
    produces `none` (0/0 is NaN; x/0 is an infinity, also non-finite).
  * Math.PI is modelled by the exact rational value of the IEEE-754
    double that JavaScript's Math.PI denotes.
  * Math.sin / Math.cos / Math.atan2 / Math.sqrt are transcendental; they
    are abstracted by a MathOracle parameter, so every theorem quantifies
    over all possible values of these functions.
  * Math.random() draws are passed in explicitly as rational streams.
  * Canvas drawing calls (paths, gradients, fills, blits) mutate only the
    pixel surface, never renderer state; they are modelled as no-ops.
    Setting a property on a null 2D context throws a TypeError in
    JavaScript, so render is Except-valued and errors when the stored
    context is missing.
  * Integer state (tick counter, segment count, energy level) only ever
    holds integral values in the source and is modelled with ℕ / ℤ.
-/

/-- JavaScript number: `some q` is a finite value, `none` is NaN or ±∞. -/
abbrev JsQ := Option ℚ

def jadd : JsQ → JsQ → JsQ
  | some a, some b => some (a + b)
  | _, _ => none

def jsub : JsQ → JsQ → JsQ
  | some a, some b => some (a - b)
  | _, _ => none

def jmul : JsQ → JsQ → JsQ
  | some a, some b => some (a * b)
  | _, _ => none

/-- JavaScript division; a zero divisor yields a non-finite result. -/
def jdiv : JsQ → JsQ → JsQ
  | some a, some b => if b = 0 then none else some (a / b)
  | _, _ => none

/-- JavaScript `<`: false whenever either operand is non-finite. -/
def jlt : JsQ → JsQ → Bool
  | some a, some b => decide (a < b)
  | _, _ => false

/-- JavaScript `>`: false whenever either operand is non-finite. -/
def jgt : JsQ → JsQ → Bool
  | some a, some b => decide (b < a)
  | _, _ => false

/-- JavaScript `>=`: false whenever either operand is non-finite. -/
def jge : JsQ → JsQ → Bool
  | some a, some b => decide (b ≤ a)
  | _, _ => false

/-- Truncation toward zero, as used by JavaScript `| 0` and `%`. -/
def truncQ (q : ℚ) : ℤ := if 0 ≤ q then ⌊q⌋ else -⌊-q⌋

/-- JavaScript remainder `a % m` (sign follows the dividend). -/
def jsRem (a : JsQ) (m : ℚ) : JsQ :=
  match a with
  | none => none
  | some q => some (q - m * (truncQ (q / m) : ℚ))

/-- The exact rational value of the IEEE-754 double Math.PI. -/
def jsPI : ℚ := 884279719003555 / 281474976710656

/-- Read `dataArray[i] ?? 0` at a possibly negative index. -/
def jsAt (data : List ℕ) (i : ℤ) : ℕ :=
  if 0 ≤ i then data.getD i.toNat 0 else 0

/-- Sum of `dataArray[i] ?? 0` for integer indices `start ≤ i < stop`. -/
def intRangeSum (data : List ℕ) (start stop : ℤ) : ℕ :=
  ((List.range (stop - start).toNat).map (fun k => jsAt data (start + k))).sum

/-- Abstraction of the transcendental Math functions used by the source. -/
structure MathOracle where
  sin : JsQ → JsQ
  cos : JsQ → JsQ
  atan2 : JsQ → JsQ → JsQ
  sqrt : JsQ → JsQ

/-- A drawing surface: dimensions plus whether a 2D context is acquirable. -/
structure Canvas2D where
  width : ℚ
  height : ℚ
  ctx2d : Option Unit

/-- The failure the spec says construction must raise. -/
inductive SetupError where
  | contextUnavailable
deriving DecidableEq

/-- The runtime failure of touching a null 2D context inside render. -/
inductive JsError where
  | nullContext
deriving DecidableEq

/-- Formalisation of the spec's QualityScaler formula (spec wording:
qualityScale = 1 if A ≤ T, else min(0.7, T/A), with T = 1920×1080). -/
def specQualityScale (area : ℚ) : ℚ :=
  if area ≤ 2073600 then 1 else min (7/10) (2073600 / area)

/-! ## ChemicalOrbitalsRenderer -/

/-- Electron record (ChemicalOrbitalsRenderer.ts lines 3-10). -/
structure Electron where
  x : JsQ
  y : JsQ
  z : JsQ
  angle : JsQ
  phase : JsQ
  speed : ℚ

/-- Mutable state of a ChemicalOrbitalsRenderer instance. -/
structure CState where
  canvasW : ℚ
  canvasH : ℚ
  ctx : Option Unit
  time : ℕ
  centerX : ℚ
  centerY : ℚ
  maxRadius : ℚ
  pixelRatio : ℚ
  qualityScale : ℚ
  currentEnergyLevel : ℕ
  energyLevelTimer : ℚ
  energyLevelDuration : ℚ
  electrons : List Electron

/-- getFrequencyBandIntensity of ChemicalOrbitalsRenderer (lines 131-146):
index computation uses `| 0` (truncation), and `count <= 0` returns 0. -/
def cBand (data : List ℕ) (len : ℕ) (startRatio endRatio : ℚ) : ℚ :=
  let startIndex := truncQ ((len : ℚ) * startRatio)
  let endIndex := truncQ ((len : ℚ) * endRatio)
  let count := endIndex - startIndex
  if count ≤ 0 then 0
  else ((intRangeSum data startIndex endIndex : ℚ) / (count : ℚ)) * (1/255)

/-- The overall audio intensity of ChemicalOrbitalsRenderer.render
(lines 91-95): sum of the first bufferLength entries, divided by
bufferLength, times 1/255.  A zero bufferLength gives NaN (none). -/
def overallC (data : List ℕ) (len : ℕ) : JsQ :=
  let s := (List.range len).foldl (fun acc i => acc + data.getD i 0) 0
  jmul (jdiv (some (s : ℚ)) (some (len : ℚ))) (some (1/255))

/-- Energy-level cycling of render (lines 100-111): the nominal-duration
check, then the audio-adjusted check, each resetting the timer and
advancing the level `n ↦ (n % 6) + 1`. -/
def levelTimerStep (audio : JsQ) (duration : ℚ) (tl : ℚ × ℕ) : ℚ × ℕ :=
  let t1 := tl.1 + 1
  let a := if duration ≤ t1 then ((0 : ℚ), tl.2 % 6 + 1) else (t1, tl.2)
  if jge (some a.1) (jdiv (some duration) (jadd (some 1) (jmul audio (some 2)))) then
    ((0 : ℚ), a.2 % 6 + 1)
  else a

/-- initializeElectrons (lines 69-83): floor(50·qualityScale) electrons,
each with random angle and phase in [0, 2π) and speed 0.01 + r·0.02.
The source empties the pool first, so the result is exactly this list. -/
def initializeElectrons (qs : ℚ) (rA rP rS : ℕ → ℚ) : List Electron :=
  (List.range (Int.toNat ⌊50 * qs⌋)).map fun i =>
    { x := some 0, y := some 0, z := some 0,
      angle := some (rA i * (2 * jsPI)),
      phase := some (rP i * (2 * jsPI)),
      speed := 1/100 + rS i * (1/50) }

/-- Per-electron update of updateElectrons (lines 470-481). -/
def updateElectron (M : MathOracle) (audio : JsQ) (bass : ℚ) (n : ℕ)
    (orbitalRadius : ℚ) (e : Electron) : Electron :=
  let speed := jmul (some e.speed) (jadd (jadd (some 1) (jmul audio (some 2))) (some bass))
  let angle2 := jadd e.angle (jdiv speed (some ((n : ℚ) * (n : ℚ))))
  let phase2 := jadd e.phase (jmul speed (some (1/2)))
  let radius := jmul (some orbitalRadius) (jadd (some (4/5)) (jmul (M.sin phase2) (some (1/5))))
  { e with
    angle := angle2
    phase := phase2
    x := jmul (M.cos angle2) radius
    y := jmul (M.sin angle2) radius
    z := jmul (jmul (M.sin phase2) radius) (some (3/10)) }

/-- State transition of ChemicalOrbitalsRenderer.render (lines 85-129):
tick counters, audio metrics, energy-level cycling, electron update.
Drawing calls touch only the pixel surface and are omitted. -/
def renderCState (M : MathOracle) (s : CState) (data : List ℕ) (len : ℕ) : CState :=
  let audio := overallC data len
  let bass := cBand data len 0 (3/20)
  let _mid := cBand data len (3/10) (3/5)
  let _treble := cBand data len (7/10) 1
  let tl := levelTimerStep audio s.energyLevelDuration
    (s.energyLevelTimer, s.currentEnergyLevel)
  let n := tl.2
  let orbitalRadius := s.maxRadius * (3/10) * (n : ℚ) * (n : ℚ)
  { s with
    time := s.time + 1
    energyLevelTimer := tl.1
    currentEnergyLevel := n
    electrons := s.electrons.map (updateElectron M audio bass n orbitalRadius) }

/-- render of ChemicalOrbitalsRenderer.  The first statement touching the
2D context (`ctx.fillStyle = ...`) throws when the context is null, so the
call errors exactly when no context was acquired; otherwise it returns the
updated state together with the frequency buffer after the call (the
source never writes to `dataArray`, so the buffer comes back unchanged). -/
def renderC (M : MathOracle) (s : CState) (data : List ℕ) (len : ℕ) :
    Except JsError (CState × List ℕ) :=
  match s.ctx with
  | none => .error .nullContext
  | some _ => .ok (renderCState M s data len, data)

/-- Constructor body (lines 46-67): quality scaling from the surface area,
capped pixel ratio, center/maxRadius geometry, electron pool. -/
def constructCState (canvas : Canvas2D) (dpr : ℚ) (rA rP rS : ℕ → ℚ) : CState :=
  let d1 := if dpr = 0 then 1 else dpr
  let area := canvas.width * canvas.height
  let qs := if area > 2073600 then min (7/10) (2073600 / area) else 1
  { canvasW := canvas.width, canvasH := canvas.height, ctx := canvas.ctx2d,
    time := 0,
    centerX := canvas.width * (1/2), centerY := canvas.height * (1/2),
    maxRadius := min canvas.width canvas.height * (2/5),
    pixelRatio := (if d1 < 2 then d1 else 2) * qs,
    qualityScale := qs,
    currentEnergyLevel := 1, energyLevelTimer := 0, energyLevelDuration := 300,
    electrons := initializeElectrons qs rA rP rS }

/-- Construction of a ChemicalOrbitalsRenderer.  The Except type states
the spec's contract; the body is unconditionally `.ok` because the
source's `canvas.getContext('2d')!` is a compile-time assertion that
performs no runtime check: the possibly-null context is stored as-is and
the constructor cannot throw. -/
def constructC (canvas : Canvas2D) (dpr : ℚ) (rA rP rS : ℕ → ℚ) :
    Except SetupError CState :=
  .ok (constructCState canvas dpr rA rP rS)

/-- resize of ChemicalOrbitalsRenderer (lines 525-545). -/
def resizeC (s : CState) (w h dpr : ℚ) (rA rP rS : ℕ → ℚ) : CState :=
  let area := w * h
  let qs := if area > 2073600
    then (if 2073600 / area < 7/10 then 2073600 / area else 7/10)
    else 1
  let d1 := if dpr = 0 then 1 else dpr
  { s with
    qualityScale := qs
    pixelRatio := min d1 2 * qs
    canvasW := w
    canvasH := h
    centerX := w * (1/2)
    centerY := h * (1/2)
    maxRadius := min w h * (2/5)
    electrons := initializeElectrons qs rA rP rS }


/-! ## KaleidoscopeRenderer -/

/-- Particle record (KaleidoscopeRenderer.ts lines 1-9).  Position and
size can become non-finite when the audio metrics are NaN, so they are
JsQ; velocity, hue and life are only ever assigned finite values. -/
structure KParticle where
  x : JsQ
  y : JsQ
  vx : ℚ
  vy : ℚ
  size : JsQ
  hue : ℚ
  life : ℚ

/-- Mutable state of a KaleidoscopeRenderer instance.  The offscreen
canvas carries its own dimensions and 2D context. -/
structure KState where
  canvasW : ℚ
  canvasH : ℚ
  ctx : Option Unit
  offctx : Option Unit
  offW : ℚ
  offH : ℚ
  segments : ℤ
  particles : List KParticle
  time : ℕ
  hueOffset : JsQ
  centerX : ℚ
  centerY : ℚ
  maxRadius : ℚ
  pixelRatio : ℚ
  qualityScale : ℚ

/-- getFrequencyBandIntensity of KaleidoscopeRenderer (lines 147-160):
Math.floor index computation and NO guard against `count ≤ 0`, so an
empty band divides 0 by 0 and produces NaN (`none`). -/
def kBand (data : List ℕ) (len : ℕ) (startRatio endRatio : ℚ) : JsQ :=
  let startIndex := ⌊(len : ℚ) * startRatio⌋
  let endIndex := ⌊(len : ℚ) * endRatio⌋
  jdiv (jdiv (some (intRangeSum data startIndex endIndex : ℚ))
      (some ((endIndex - startIndex : ℤ) : ℚ)))
    (some 255)

/-- Overall intensity of KaleidoscopeRenderer.render (lines 86-87):
`dataArray.reduce` sums the WHOLE buffer (not just the first
bufferLength entries), then divides by bufferLength and by 255. -/
def overallK (data : List ℕ) (len : ℕ) : JsQ :=
  jdiv (jdiv (some ((data.sum : ℕ) : ℚ)) (some (len : ℚ))) (some 255)

/-- Segment-count retargeting of render (lines 102-106): reassigned to
floor(12 + bass·20), but only when it differs from the current value and
the (already incremented) tick counter is a multiple of 5.  A NaN bass
makes both comparisons false, leaving the count unchanged. -/
def segUpdate (bass : JsQ) (time2 : ℕ) (segments : ℤ) : ℤ :=
  match bass with
  | none => segments
  | some b =>
    if segments ≠ ⌊(12 : ℚ) + b * 20⌋ ∧ time2 % 5 = 0 then ⌊(12 : ℚ) + b * 20⌋
    else segments

/-- initializeParticles (lines 58-79): floor(100·qualityScale) particles
seeded into the first wedge.  Callers clear the pool first (construction
starts empty, resize assigns `[]`), so the result is exactly this list. -/
def initializeParticlesK (M : MathOracle) (qs maxR : ℚ) (segments : ℤ)
    (rnd : ℕ → ℕ → ℚ) : List KParticle :=
  let segmentAngle := 2 * jsPI / (segments : ℚ)
  (List.range (Int.toNat ⌊100 * qs⌋)).map fun i =>
    let angle := rnd i 0 * segmentAngle
    let radius := rnd i 1 * maxR * (1/2)
    { x := jmul (M.cos (some angle)) (some radius)
      y := jmul (M.sin (some angle)) (some radius)
      vx := (rnd i 2 - 1/2) * 2
      vy := (rnd i 3 - 1/2) * 2
      size := some (5 + rnd i 4 * 15)
      hue := rnd i 5 * 360
      life := 1 }

/-- The respawn condition of updateParticles (line 433): the particle's
life after this tick's decay is ≤ 0, or its radial distance after this
tick's velocity step (line 411; rotation and reflection preserve it)
exceeds 0.6×maxRadius.  Named separately so theorems can refer to the
branch taken; it recomputes the same values updateParticleFull computes. -/
def respawnCondB (M : MathOracle) (audio bass : JsQ) (maxR : ℚ) (p : KParticle) : Bool :=
  let sm := jadd (jadd (some 1) (jmul audio (some (3/2)))) (jmul bass (some (4/5)))
  let x1 := jadd p.x (jmul (some p.vx) sm)
  let y1 := jadd p.y (jmul (some p.vy) sm)
  let radius := M.sqrt (jadd (jmul x1 x1) (jmul y1 y1))
  decide (p.life - 1/200 ≤ 0) || jgt radius (some (maxR * (3/5)))

/-- Body of the updateParticles forEach (lines 403-444) for one particle:
audio-scaled translation, rotation about the origin, life decay, wedge
containment with reflection, and forced respawn on death or escape.
Returns the updated particle together with whether the respawn branch
fired.  r1..r6 are the Math.random() draws used by a respawn. -/
def updateParticleFull (M : MathOracle) (audio bass : JsQ) (segAngle maxR : ℚ)
    (r1 r2 r3 r4 r5 r6 : ℚ) (p : KParticle) : KParticle × Bool :=
  let sm := jadd (jadd (some 1) (jmul audio (some (3/2)))) (jmul bass (some (4/5)))
  let x1 := jadd p.x (jmul (some p.vx) sm)
  let y1 := jadd p.y (jmul (some p.vy) sm)
  let ang := M.atan2 y1 x1
  let radius := M.sqrt (jadd (jmul x1 x1) (jmul y1 y1))
  let rotSpeed := jmul (some (1/100)) (jadd (jadd (some 1) (jmul audio (some 2))) (jmul bass (some (3/2))))
  let ang2 := jadd ang rotSpeed
  let x2 := jmul (M.cos ang2) radius
  let y2 := jmul (M.sin ang2) radius
  let pa0 := M.atan2 y2 x2
  let pa := if jlt pa0 (some 0) then jadd pa0 (some (2 * jsPI)) else pa0
  let hitWall := jgt pa (some segAngle)
  let paRefl := jsub (some segAngle) (jsub pa (some segAngle))
  let x3 := if hitWall then jmul (M.cos paRefl) radius else x2
  let y3 := if hitWall then jmul (M.sin paRefl) radius else y2
  let vx3 := if hitWall then p.vx * (-4/5) else p.vx
  let vy3 := if hitWall then p.vy * (-4/5) else p.vy
  if respawnCondB M audio bass maxR p then
    ({ x := jmul (M.cos (some (r1 * segAngle))) (some (r2 * 50))
       y := jmul (M.sin (some (r1 * segAngle))) (some (r2 * 50))
       vx := (r3 - 1/2) * 2
       vy := (r4 - 1/2) * 2
       size := jadd (some (5 + r6 * 15)) (jmul bass (some 10))
       hue := r5 * 360
       life := 1 }, true)
  else
    ({ x := x3, y := y3, vx := vx3, vy := vy3, size := p.size, hue := p.hue,
       life := p.life - 1/200 }, false)

/-- updateParticles (lines 400-445): the forEach over the pool, with the
per-particle random draws indexed by position in the pool. -/
def updateParticlesK (M : MathOracle) (audio bass : JsQ) (segments : ℤ)
    (maxR : ℚ) (rnd : ℕ → ℕ → ℚ) (ps : List KParticle) : List KParticle :=
  let segAngle := 2 * jsPI / (segments : ℚ)
  ps.enum.map fun ie =>
    (updateParticleFull M audio bass segAngle maxR
      (rnd ie.1 0) (rnd ie.1 1) (rnd ie.1 2) (rnd ie.1 3) (rnd ie.1 4) (rnd ie.1 5)
      ie.2).1

/-- State transition of KaleidoscopeRenderer.render (lines 81-145): tick
counter, audio metrics, bass-reactive hue rotation, segment retargeting,
particle update.  The wedge drawing and mirrored compositing touch only
pixels and are omitted. -/
def renderKState (M : MathOracle) (rnd : ℕ → ℕ → ℚ) (s : KState)
    (data : List ℕ) (len : ℕ) : KState :=
  let time2 := s.time + 1
  let audio := overallK data len
  let bass := kBand data len 0 (3/20)
  let hue2 := jsRem (jadd (jadd s.hueOffset (some (1/2))) (jmul bass (some 2))) 360
  let _mid := kBand data len (3/10) (3/5)
  let _treble := kBand data len (7/10) 1
  let seg2 := segUpdate bass time2 s.segments
  { s with
    time := time2
    hueOffset := hue2
    segments := seg2
    particles := updateParticlesK M audio bass seg2 s.maxRadius rnd s.particles }

/-- render of KaleidoscopeRenderer: the first touches of the main and
offscreen 2D contexts throw when either is null; otherwise the state is
advanced and the (never written) frequency buffer is returned unchanged. -/
def renderK (M : MathOracle) (rnd : ℕ → ℕ → ℚ) (s : KState)
    (data : List ℕ) (len : ℕ) : Except JsError (KState × List ℕ) :=
  match s.ctx, s.offctx with
  | some _, some _ => .ok (renderKState M rnd s data len, data)
  | _, _ => .error .nullContext

/-- Constructor body (lines 26-56): quality scaling, capped pixel ratio,
offscreen canvas sized to the visible canvas, geometry, particle pool. -/
def constructKState (canvas : Canvas2D) (off : Option Unit) (dpr : ℚ)
    (M : MathOracle) (rnd : ℕ → ℕ → ℚ) : KState :=
  let d1 := if dpr = 0 then 1 else dpr
  let area := canvas.width * canvas.height
  let qs := if area > 1920 * 1080 then min (7/10) (1920 * 1080 / area) else 1
  { canvasW := canvas.width, canvasH := canvas.height, ctx := canvas.ctx2d,
    offctx := off, offW := canvas.width, offH := canvas.height,
    segments := 12,
    particles := initializeParticlesK M qs (min canvas.width canvas.height * (4/5)) 12 rnd,
    time := 0, hueOffset := some 0,
    centerX := canvas.width / 2, centerY := canvas.height / 2,
    maxRadius := min canvas.width canvas.height * (4/5),
    pixelRatio := min d1 2 * qs, qualityScale := qs }

/-- Construction of a KaleidoscopeRenderer: as for the chemical variant,
the non-null assertions on both getContext calls perform no runtime
check, so construction is unconditionally `.ok`. -/
def constructK (canvas : Canvas2D) (off : Option Unit) (dpr : ℚ)
    (M : MathOracle) (rnd : ℕ → ℕ → ℚ) : Except SetupError KState :=
  .ok (constructKState canvas off dpr M rnd)

/-- resize of KaleidoscopeRenderer (lines 447-472).  initializeParticles
reads the CURRENT segment count, which resize does not reset. -/
def resizeK (M : MathOracle) (s : KState) (w h dpr : ℚ) (rnd : ℕ → ℕ → ℚ) : KState :=
  let area := w * h
  let qs := if area > 1920 * 1080 then min (7/10) (1920 * 1080 / area) else 1
  let d1 := if dpr = 0 then 1 else dpr
  { s with
    qualityScale := qs
    pixelRatio := min d1 2 * qs
    canvasW := w
    canvasH := h
    offW := w
    offH := h
    centerX := w / 2
    centerY := h / 2
    maxRadius := min w h * (4/5)
    particles := initializeParticlesK M qs (min w h * (4/5)) s.segments rnd }


/-! ## Shared concrete instances used by witnesses -/

/-- A concrete oracle (all transcendental calls return 0). -/
def M0 : MathOracle :=
  { sin := fun _ => some 0, cos := fun _ => some 0,
    atan2 := fun _ _ => some 0, sqrt := fun _ => some 0 }

/-- A trivial random stream. -/
def z1 : ℕ → ℚ := fun _ => 0

/-- A trivial two-index random stream. -/
def z2 : ℕ → ℕ → ℚ := fun _ _ => 0

/-- A 1000 by 1000 surface with an acquirable context. -/
def okCanvas : Canvas2D := { width := 1000, height := 1000, ctx2d := some () }

/-- A surface on which no 2D context can be acquired. -/
def badCanvas : Canvas2D := { width := 100, height := 100, ctx2d := none }

/-! ## Helper lemmas -/

lemma tern_min_two (d : ℚ) : (if d < 2 then d else 2) = min d 2 := by
  rcases lt_trichotomy d 2 with h | h | h
  · rw [if_pos h, min_eq_left h.le]
  · rw [h]; simp
  · rw [if_neg (not_lt.mpr h.le), min_eq_right h.le]

lemma qsC_eq (A : ℚ) :
    (if A > 2073600 then min ((7:ℚ)/10) (2073600 / A) else 1) = specQualityScale A := by
  unfold specQualityScale
  rcases le_or_lt A 2073600 with h | h
  · rw [if_neg (not_lt.mpr h), if_pos h]
  · rw [if_pos h, if_neg (not_le.mpr h)]

lemma qsK_eq (A : ℚ) :
    (if A > 1920 * 1080 then min ((7:ℚ)/10) (1920 * 1080 / A) else 1) = specQualityScale A := by
  have h : (1920 * 1080 : ℚ) = 2073600 := by norm_num
  rw [h, qsC_eq]

lemma qsCr_eq (A : ℚ) :
    (if A > 2073600 then (if 2073600 / A < 7/10 then 2073600 / A else (7:ℚ)/10) else 1)
      = specQualityScale A := by
  rw [← qsC_eq]
  rcases le_or_lt A 2073600 with h | h
  · rw [if_neg (not_lt.mpr h), if_neg (not_lt.mpr h)]
  · rw [if_pos h, if_pos h]
    rcases lt_trichotomy (2073600 / A) (7/10 : ℚ) with h2 | h2 | h2
    · rw [if_pos h2, min_eq_right h2.le]
    · rw [h2]; simp
    · rw [if_neg (not_lt.mpr h2.le), min_eq_left h2.le]

lemma initializeElectrons_length (qs : ℚ) (rA rP rS : ℕ → ℚ) :
    (initializeElectrons qs rA rP rS).length = Int.toNat ⌊50 * qs⌋ := by
  simp [initializeElectrons]

lemma initializeParticlesK_length (M : MathOracle) (qs maxR : ℚ) (segments : ℤ)
    (rnd : ℕ → ℕ → ℚ) :
    (initializeParticlesK M qs maxR segments rnd).length = Int.toNat ⌊100 * qs⌋ := by
  simp [initializeParticlesK]

lemma overallC_nonneg (data : List ℕ) (len : ℕ) (q : ℚ)
    (h : overallC data len = some q) : 0 ≤ q := by
  unfold overallC jdiv jmul at h
  by_cases hl : ((len : ℕ) : ℚ) = 0
  · simp [hl] at h
  · simp only [hl, if_false, if_neg hl] at h
    have := h
    simp only [Option.some.injEq] at this
    rw [← this]
    have hnum : (0:ℚ) ≤ ((List.range len).foldl (fun acc i => acc + data.getD i 0) 0 : ℕ) :=
      Nat.cast_nonneg _
    have hden : (0:ℚ) ≤ ((len : ℕ) : ℚ) := Nat.cast_nonneg _
    positivity

lemma renderCState_level (M : MathOracle) (s : CState) (data : List ℕ) (len : ℕ) :
    (renderCState M s data len).currentEnergyLevel =
      (levelTimerStep (overallC data len) s.energyLevelDuration
        (s.energyLevelTimer, s.currentEnergyLevel)).2 := rfl

lemma renderCState_timer (M : MathOracle) (s : CState) (data : List ℕ) (len : ℕ) :
    (renderCState M s data len).energyLevelTimer =
      (levelTimerStep (overallC data len) s.energyLevelDuration
        (s.energyLevelTimer, s.currentEnergyLevel)).1 := rfl

lemma renderCState_duration (M : MathOracle) (s : CState) (data : List ℕ) (len : ℕ) :
    (renderCState M s data len).energyLevelDuration = s.energyLevelDuration := rfl

lemma renderCState_electrons_length (M : MathOracle) (s : CState) (data : List ℕ) (len : ℕ) :
    (renderCState M s data len).electrons.length = s.electrons.length := by
  simp [renderCState]

lemma levelTimerStep_cases (audio : JsQ) (dur t : ℚ) (l : ℕ)
    (hdur : 0 < dur) (hnn : ∀ q, audio = some q → 0 ≤ q) :
    levelTimerStep audio dur (t, l) = (t + 1, l) ∨
    levelTimerStep audio dur (t, l) = (0, l % 6 + 1) := by
  unfold levelTimerStep
  by_cases h1 : dur ≤ t + 1
  · right
    simp only [h1, if_true]
    cases haud : audio with
    | none => simp [jmul, jadd, jdiv, jge]
    | some a0 =>
      have ha0 : 0 ≤ a0 := hnn a0 haud
      have hden : (0:ℚ) < 1 + a0 * 2 := by linarith
      have hpos : 0 < dur / (1 + a0 * 2) := div_pos hdur hden
      simp only [jmul, jadd, jdiv, jge, if_neg (ne_of_gt hden)]
      simp [not_le.mpr hpos]
  · simp only [h1, if_false, if_neg h1]
    by_cases h2 :
        jge (some (t + 1)) (jdiv (some dur) (jadd (some 1) (jmul audio (some 2)))) = true
    · right; simp [h2]
    · left; simp [Bool.not_eq_true] at h2; simp [h2]

/-! ## Claim C1 -/

/-- C1: for every render() call on a ChemicalOrbitalsRenderer, the energy
level either stays or advances to its cyclic successor (n % 6) + 1 —
never skips, never repeats out of order, and never double-advances in one
tick: the nominal-duration check and the audio-adjusted check can never
both fire in the same tick, because the first resets the timer to 0 and
the audio-adjusted threshold is strictly positive.  The level stays in
1..6. -/
theorem chem_energy_level_single_advance (M : MathOracle) (s : CState)
    (data : List ℕ) (len : ℕ) (s2 : CState) (d2 : List ℕ)
    (hok : renderC M s data len = .ok (s2, d2))
    (hdur : 0 < s.energyLevelDuration)
    (hlo : 1 ≤ s.currentEnergyLevel) (hhi : s.currentEnergyLevel ≤ 6) :
    ((s2.currentEnergyLevel = s.currentEnergyLevel ∧
        s2.energyLevelTimer = s.energyLevelTimer + 1) ∨
      (s2.currentEnergyLevel = s.currentEnergyLevel % 6 + 1 ∧
        s2.energyLevelTimer = 0)) ∧
    (1 ≤ s2.currentEnergyLevel ∧ s2.currentEnergyLevel ≤ 6) := by
  unfold renderC at hok
  cases hctx : s.ctx with
  | none => rw [hctx] at hok; exact absurd hok (by simp)
  | some u =>
    rw [hctx] at hok
    simp only [Except.ok.injEq, Prod.mk.injEq] at hok
    obtain ⟨hs2, _⟩ := hok
    subst hs2
    have hcases := levelTimerStep_cases (overallC data len) s.energyLevelDuration
      s.energyLevelTimer s.currentEnergyLevel hdur
      (fun q hq => overallC_nonneg data len q hq)
    rw [renderCState_level, renderCState_timer]
    rcases hcases with h | h
    · constructor
      · left
        rw [h]
        exact ⟨rfl, rfl⟩
      · rw [h]; exact ⟨hlo, hhi⟩
    · constructor
      · right
        rw [h]
        exact ⟨rfl, rfl⟩
      · rw [h]
        have : s.currentEnergyLevel % 6 < 6 := Nat.mod_lt _ (by norm_num)
        omega

/-- C1 witness: one concrete render() step on a freshly constructed
renderer advances as the theorem prescribes. -/
theorem chem_energy_level_single_advance_witness :
    (((renderCState M0 (constructCState okCanvas 1 z1 z1 z1) [128, 128] 2).currentEnergyLevel =
          (constructCState okCanvas 1 z1 z1 z1).currentEnergyLevel ∧
        (renderCState M0 (constructCState okCanvas 1 z1 z1 z1) [128, 128] 2).energyLevelTimer =
          (constructCState okCanvas 1 z1 z1 z1).energyLevelTimer + 1) ∨
      ((renderCState M0 (constructCState okCanvas 1 z1 z1 z1) [128, 128] 2).currentEnergyLevel =
          (constructCState okCanvas 1 z1 z1 z1).currentEnergyLevel % 6 + 1 ∧
        (renderCState M0 (constructCState okCanvas 1 z1 z1 z1) [128, 128] 2).energyLevelTimer = 0)) ∧
    (1 ≤ (renderCState M0 (constructCState okCanvas 1 z1 z1 z1) [128, 128] 2).currentEnergyLevel ∧
      (renderCState M0 (constructCState okCanvas 1 z1 z1 z1) [128, 128] 2).currentEnergyLevel ≤ 6) :=
  chem_energy_level_single_advance M0 (constructCState okCanvas 1 z1 z1 z1) [128, 128] 2
    (renderCState M0 (constructCState okCanvas 1 z1 z1 z1) [128, 128] 2) [128, 128]
    rfl (by norm_num [constructCState]) (by norm_num [constructCState])
    (by norm_num [constructCState])

/-! ## Claim C4 -/

/-- C4: both renderers compute qualityScale by the spec formula
(1 when area ≤ 1920·1080, else min(0.7, threshold/area)) and
effectivePixelRatio = min(devicePixelRatio, 2) × qualityScale; a
1920×1080 surface yields exactly 1 and a 3840×2160 surface exactly 1/4. -/
theorem quality_scale_formula (c : Canvas2D) (off : Option Unit) (d : ℚ)
    (M : MathOracle) (rA rP rS : ℕ → ℚ) (rnd : ℕ → ℕ → ℚ)
    (hd : 0 < d) :
    (constructCState c d rA rP rS).qualityScale = specQualityScale (c.width * c.height) ∧
    (constructKState c off d M rnd).qualityScale = specQualityScale (c.width * c.height) ∧
    (constructCState c d rA rP rS).pixelRatio = min d 2 * specQualityScale (c.width * c.height) ∧
    (constructKState c off d M rnd).pixelRatio = min d 2 * specQualityScale (c.width * c.height) ∧
    specQualityScale (1920 * 1080) = 1 ∧
    specQualityScale (3840 * 2160) = 1 / 4 := by
  have hd0 : d ≠ 0 := ne_of_gt hd
  refine ⟨?_, ?_, ?_, ?_, ?_, ?_⟩
  · simp only [constructCState, qsC_eq]
  · simp only [constructKState, qsK_eq]
  · simp only [constructCState, qsC_eq, if_neg hd0, tern_min_two]
  · simp only [constructKState, qsK_eq, if_neg hd0]
  · unfold specQualityScale; norm_num
  · unfold specQualityScale; norm_num

/-- C4 witness: the formula evaluated on the two surfaces named by the
spec, with device pixel ratio 1. -/
theorem quality_scale_formula_witness :
    (constructCState ⟨1920, 1080, some ()⟩ 1 z1 z1 z1).qualityScale =
      specQualityScale ((1920 : ℚ) * 1080) ∧
    (constructKState ⟨3840, 2160, some ()⟩ (some ()) 1 M0 z2).qualityScale =
      specQualityScale ((3840 : ℚ) * 2160) ∧
    (constructCState ⟨1920, 1080, some ()⟩ 1 z1 z1 z1).pixelRatio =
      min 1 2 * specQualityScale ((1920 : ℚ) * 1080) ∧
    (constructKState ⟨1920, 1080, some ()⟩ (some ()) 1 M0 z2).pixelRatio =
      min 1 2 * specQualityScale ((1920 : ℚ) * 1080) ∧
    specQualityScale (1920 * 1080) = 1 ∧
    specQualityScale (3840 * 2160) = 1 / 4 := by
  refine ⟨?_, ?_, ?_, ?_, ?_, ?_⟩
  · exact (quality_scale_formula ⟨1920, 1080, some ()⟩ (some ()) 1 M0 z1 z1 z1 z2
      (by norm_num)).1
  · exact (quality_scale_formula ⟨3840, 2160, some ()⟩ (some ()) 1 M0 z1 z1 z1 z2
      (by norm_num)).2.1
  · exact (quality_scale_formula ⟨1920, 1080, some ()⟩ (some ()) 1 M0 z1 z1 z1 z2
      (by norm_num)).2.2.1
  · exact (quality_scale_formula ⟨1920, 1080, some ()⟩ (some ()) 1 M0 z1 z1 z1 z2
      (by norm_num)).2.2.2.1
  · exact (quality_scale_formula ⟨1920, 1080, some ()⟩ (some ()) 1 M0 z1 z1 z1 z2
      (by norm_num)).2.2.2.2.1
  · exact (quality_scale_formula ⟨1920, 1080, some ()⟩ (some ()) 1 M0 z1 z1 z1 z2
      (by norm_num)).2.2.2.2.2

/-! ## Claim C9 -/

/-- C9: ChemicalOrbitalsRenderer.resize leaves the energy-level state
machine (currentEnergyLevel, energyLevelTimer, energyLevelDuration) and
the tick counter untouched, while quality state, center, maxRadius and
the electron pool are recomputed from the new dimensions. -/
theorem chem_resize_preserves_energy_state (s : CState) (w h d : ℚ)
    (rA rP rS : ℕ → ℚ) :
    (resizeC s w h d rA rP rS).currentEnergyLevel = s.currentEnergyLevel ∧
    (resizeC s w h d rA rP rS).energyLevelTimer = s.energyLevelTimer ∧
    (resizeC s w h d rA rP rS).energyLevelDuration = s.energyLevelDuration ∧
    (resizeC s w h d rA rP rS).time = s.time ∧
    (resizeC s w h d rA rP rS).qualityScale = specQualityScale (w * h) ∧
    (resizeC s w h d rA rP rS).centerX = w * (1/2) ∧
    (resizeC s w h d rA rP rS).centerY = h * (1/2) ∧
    (resizeC s w h d rA rP rS).maxRadius = min w h * (2/5) ∧
    (resizeC s w h d rA rP rS).electrons.length =
      Int.toNat ⌊50 * specQualityScale (w * h)⌋ := by
  refine ⟨rfl, rfl, rfl, rfl, ?_, rfl, rfl, rfl, ?_⟩
  · simp only [resizeC, qsCr_eq]
  · simp only [resizeC, initializeElectrons_length, qsCr_eq]

/-! ## Claim C5 -/

/-- C5 counterexample: constructing either renderer on a surface whose 2D
context cannot be acquired does NOT raise a SetupError — the non-null
assertion `canvas.getContext('2d')!` performs no runtime check, so
construction completes normally (contradicting the claim that a
SetupError is raised and surfaced at construction). -/
theorem construct_no_error_counterexample :
    constructC badCanvas 1 z1 z1 z1 = .ok (constructCState badCanvas 1 z1 z1 z1) ∧
    constructK badCanvas none 1 M0 z2 = .ok (constructKState badCanvas none 1 M0 z2) :=
  ⟨rfl, rfl⟩

/-- C5 amended: construction never raises, whether or not the context is
acquirable; when the context is missing the failure surfaces only at the
first render() call, which throws on the null context. -/
theorem construct_never_raises (c : Canvas2D) (off : Option Unit) (d : ℚ)
    (M : MathOracle) (rA rP rS : ℕ → ℚ) (rnd : ℕ → ℕ → ℚ)
    (data : List ℕ) (len : ℕ) (hctx : c.ctx2d = none) :
    (∃ st, constructC c d rA rP rS = .ok st) ∧
    (∃ st, constructK c off d M rnd = .ok st) ∧
    renderC M (constructCState c d rA rP rS) data len = .error .nullContext ∧
    renderK M rnd (constructKState c off d M rnd) data len = .error .nullContext := by
  refine ⟨⟨_, rfl⟩, ⟨_, rfl⟩, ?_, ?_⟩
  · unfold renderC
    have : (constructCState c d rA rP rS).ctx = none := hctx
    rw [this]
  · unfold renderK
    have : (constructKState c off d M rnd).ctx = none := hctx
    rw [this]

/-- C5 amended witness: concrete context-less surface. -/
theorem construct_never_raises_witness :
    (∃ st, constructC badCanvas 1 z1 z1 z1 = .ok st) ∧
    (∃ st, constructK badCanvas none 1 M0 z2 = .ok st) ∧
    renderC M0 (constructCState badCanvas 1 z1 z1 z1) [] 0 = .error .nullContext ∧
    renderK M0 z2 (constructKState badCanvas none 1 M0 z2) [] 0 = .error .nullContext :=
  construct_never_raises badCanvas none 1 M0 z1 z1 z1 z2 [] 0 rfl

/-! ## Claim C10 -/

/-- C10: render() of either renderer never writes to the frequency
buffer: whenever the call succeeds, the buffer after the call is exactly
the buffer before the call. -/
theorem render_buffer_readonly (M : MathOracle) (rnd : ℕ → ℕ → ℚ)
    (sc : CState) (sk : KState) (data : List ℕ) (len : ℕ)
    (c2 : CState) (k2 : KState) (dc dk : List ℕ)
    (hc : renderC M sc data len = .ok (c2, dc))
    (hk : renderK M rnd sk data len = .ok (k2, dk)) :
    dc = data ∧ dk = data := by
  constructor
  · unfold renderC at hc
    cases hctx : sc.ctx with
    | none => rw [hctx] at hc; exact absurd hc (by simp)
    | some u =>
      rw [hctx] at hc
      simp only [Except.ok.injEq, Prod.mk.injEq] at hc
      exact hc.2.symm
  · unfold renderK at hk
    cases hctx : sk.ctx with
    | none => rw [hctx] at hk; exact absurd hk (by simp)
    | some u =>
      cases hoff : sk.offctx with
      | none => rw [hctx, hoff] at hk; exact absurd hk (by simp)
      | some v =>
        rw [hctx, hoff] at hk
        simp only [Except.ok.injEq, Prod.mk.injEq] at hk
        exact hk.2.symm

/-- C10 witness: a concrete successful render on each renderer returns
the input buffer unchanged. -/
theorem render_buffer_readonly_witness : ([1, 2] : List ℕ) = [1, 2] ∧ ([1, 2] : List ℕ) = [1, 2] :=
  render_buffer_readonly M0 z2 (constructCState okCanvas 1 z1 z1 z1)
    (constructKState okCanvas (some ()) 1 M0 z2) [1, 2] 2
    (renderCState M0 (constructCState okCanvas 1 z1 z1 z1) [1, 2] 2)
    (renderKState M0 z2 (constructKState okCanvas (some ()) 1 M0 z2) [1, 2] 2)
    [1, 2] [1, 2] rfl rfl

/-! ## Claim C3 -/

/-- C3 divergence, evaluated at the failing inputs: for a zero-length
buffer (and for any band with count = 0) KaleidoscopeRenderer's
getFrequencyBandIntensity computes 0/0 = NaN, and the overall intensity
of BOTH renderers computes sum/0 = NaN — not the 0 the claim requires.
Only ChemicalOrbitalsRenderer's band helper has the count ≤ 0 guard and
returns 0 as documented. -/
theorem band_intensity_nan_divergence :
    kBand [] 0 0 (3/20) = none ∧
    overallK [] 0 = none ∧
    overallC [] 0 = none ∧
    kBand [200, 200, 200, 200, 200, 200, 200, 200] 8 (1/2) (1/2) = none ∧
    cBand [] 0 0 (3/20) = 0 ∧
    cBand [200, 200, 200, 200, 200, 200, 200, 200] 8 (1/2) (1/2) = 0 := by
  refine ⟨?_, ?_, ?_, ?_, ?_, ?_⟩
  · norm_num [kBand, jdiv, intRangeSum]
  · norm_num [overallK, jdiv]
  · norm_num [overallC, jdiv, jmul]
  · norm_num [kBand, jdiv, intRangeSum]
  · norm_num [cBand, truncQ]
  · norm_num [cBand, truncQ]

/-! ## Claim C7 -/

/-- C7: resize is idempotent for unchanged dimensions — a second
resize(w, h) leaves qualityScale, effectivePixelRatio, center, maxRadius
and the pool size exactly as after the first — the pool size after any
resize is floor(baseCount × newQualityScale) by the same formula used at
construction (base 100 for particles, 50 for electrons), and a render()
immediately after a resize() does not raise. -/
theorem resize_idempotent_pools (M : MathOracle) (sk : KState) (sc : CState)
    (c : Canvas2D) (off : Option Unit) (w h d : ℚ)
    (r1 r2 : ℕ → ℕ → ℚ) (rA1 rP1 rS1 rA2 rP2 rS2 rA rP rS : ℕ → ℚ)
    (rnd : ℕ → ℕ → ℚ) (data : List ℕ) (len : ℕ)
    (hctx : sk.ctx = some ()) (hoff : sk.offctx = some ())
    (hcc : sc.ctx = some ()) :
    (resizeK M (resizeK M sk w h d r1) w h d r2).qualityScale =
      (resizeK M sk w h d r1).qualityScale ∧
    (resizeK M (resizeK M sk w h d r1) w h d r2).pixelRatio =
      (resizeK M sk w h d r1).pixelRatio ∧
    (resizeK M (resizeK M sk w h d r1) w h d r2).centerX =
      (resizeK M sk w h d r1).centerX ∧
    (resizeK M (resizeK M sk w h d r1) w h d r2).centerY =
      (resizeK M sk w h d r1).centerY ∧
    (resizeK M (resizeK M sk w h d r1) w h d r2).maxRadius =
      (resizeK M sk w h d r1).maxRadius ∧
    (resizeK M (resizeK M sk w h d r1) w h d r2).particles.length =
      (resizeK M sk w h d r1).particles.length ∧
    (resizeK M sk w h d r1).particles.length =
      Int.toNat ⌊100 * specQualityScale (w * h)⌋ ∧
    (constructKState c off d M rnd).particles.length =
      Int.toNat ⌊100 * specQualityScale (c.width * c.height)⌋ ∧
    (∃ res, renderK M rnd (resizeK M sk w h d r1) data len = .ok res) ∧
    (resizeC (resizeC sc w h d rA1 rP1 rS1) w h d rA2 rP2 rS2).qualityScale =
      (resizeC sc w h d rA1 rP1 rS1).qualityScale ∧
    (resizeC (resizeC sc w h d rA1 rP1 rS1) w h d rA2 rP2 rS2).pixelRatio =
      (resizeC sc w h d rA1 rP1 rS1).pixelRatio ∧
    (resizeC (resizeC sc w h d rA1 rP1 rS1) w h d rA2 rP2 rS2).centerX =
      (resizeC sc w h d rA1 rP1 rS1).centerX ∧
    (resizeC (resizeC sc w h d rA1 rP1 rS1) w h d rA2 rP2 rS2).centerY =
      (resizeC sc w h d rA1 rP1 rS1).centerY ∧
    (resizeC (resizeC sc w h d rA1 rP1 rS1) w h d rA2 rP2 rS2).maxRadius =
      (resizeC sc w h d rA1 rP1 rS1).maxRadius ∧
    (resizeC (resizeC sc w h d rA1 rP1 rS1) w h d rA2 rP2 rS2).electrons.length =
      (resizeC sc w h d rA1 rP1 rS1).electrons.length ∧
    (resizeC sc w h d rA1 rP1 rS1).electrons.length =
      Int.toNat ⌊50 * specQualityScale (w * h)⌋ ∧
    (constructCState c d rA rP rS).electrons.length =
      Int.toNat ⌊50 * specQualityScale (c.width * c.height)⌋ ∧
    (∃ res, renderC M (resizeC sc w h d rA1 rP1 rS1) data len = .ok res) := by
  refine ⟨rfl, rfl, rfl, rfl, rfl, ?_, ?_, ?_, ?_, rfl, rfl, rfl, rfl, rfl, ?_, ?_, ?_, ?_⟩
  · simp [resizeK, initializeParticlesK_length]
  · simp [resizeK, initializeParticlesK_length, qsK_eq]
  · simp [constructKState, initializeParticlesK_length, qsK_eq]
  · have h1 : (resizeK M sk w h d r1).ctx = some () := hctx
    have h2 : (resizeK M sk w h d r1).offctx = some () := hoff
    unfold renderK
    rw [h1, h2]
    exact ⟨_, rfl⟩
  · simp [resizeC, initializeElectrons_length]
  · simp [resizeC, initializeElectrons_length, qsCr_eq]
  · simp [constructCState, initializeElectrons_length, qsC_eq]
  · have h1 : (resizeC sc w h d rA1 rP1 rS1).ctx = some () := hcc
    unfold renderC
    rw [h1]
    exact ⟨_, rfl⟩

/-- C7 witness: after a concrete resize to 10×10 the particle pool is
floor(100·1) and the follow-up render succeeds. -/
theorem resize_idempotent_pools_witness :
    (resizeK M0 (constructKState okCanvas (some ()) 1 M0 z2) 10 10 1 z2).particles.length =
      Int.toNat ⌊100 * specQualityScale ((10 : ℚ) * 10)⌋ ∧
    (∃ res, renderC M0
      (resizeC (constructCState okCanvas 1 z1 z1 z1) 10 10 1 z1 z1 z1) [] 0 = .ok res) :=
  ⟨(resize_idempotent_pools M0 (constructKState okCanvas (some ()) 1 M0 z2)
      (constructCState okCanvas 1 z1 z1 z1) okCanvas (some ()) 10 10 1
      z2 z2 z1 z1 z1 z1 z1 z1 z1 z1 z1 z2 [] 0 rfl rfl rfl).2.2.2.2.2.2.1,
   (resize_idempotent_pools M0 (constructKState okCanvas (some ()) 1 M0 z2)
      (constructCState okCanvas 1 z1 z1 z1) okCanvas (some ()) 10 10 1
      z2 z2 z1 z1 z1 z1 z1 z1 z1 z1 z1 z2 [] 0 rfl rfl rfl).2.2.2.2.2.2.2.2.2.2.2.2.2.2.2.2.2⟩

/-! ## Claim C8 -/

/-- Iterated Kaleidoscope renders driven by streams of buffers, lengths
and random draws. -/
def kTraj (M : MathOracle) (rnds : ℕ → ℕ → ℕ → ℚ) (bufs : ℕ → List ℕ)
    (lens : ℕ → ℕ) (s : KState) : ℕ → KState
  | 0 => s
  | k + 1 => renderKState M (rnds k) (kTraj M rnds bufs lens s k) (bufs k) (lens k)

lemma renderKState_time (M : MathOracle) (rnd : ℕ → ℕ → ℚ) (s : KState)
    (data : List ℕ) (len : ℕ) : (renderKState M rnd s data len).time = s.time + 1 := rfl

lemma renderKState_segments (M : MathOracle) (rnd : ℕ → ℕ → ℚ) (s : KState)
    (data : List ℕ) (len : ℕ) :
    (renderKState M rnd s data len).segments =
      segUpdate (kBand data len 0 (3/20)) (s.time + 1) s.segments := rfl

lemma kTraj_time (M : MathOracle) (rnds : ℕ → ℕ → ℕ → ℚ) (bufs : ℕ → List ℕ)
    (lens : ℕ → ℕ) (s : KState) : ∀ k, (kTraj M rnds bufs lens s k).time = s.time + k := by
  intro k
  induction k with
  | zero => rfl
  | succ n ih =>
    show (renderKState _ _ _ _ _).time = _
    rw [renderKState_time, ih]
    omega

lemma kTraj_segments_step (M : MathOracle) (rnds : ℕ → ℕ → ℕ → ℚ) (bufs : ℕ → List ℕ)
    (lens : ℕ → ℕ) (s : KState) (k : ℕ) :
    (kTraj M rnds bufs lens s (k + 1)).segments =
      segUpdate (kBand (bufs k) (lens k) 0 (3/20)) (s.time + k + 1)
        (kTraj M rnds bufs lens s k).segments := by
  show (renderKState _ _ _ _ _).segments = _
  rw [renderKState_segments, kTraj_time]

lemma segChange_info (M : MathOracle) (rnd : ℕ → ℕ → ℚ) (s : KState)
    (data : List ℕ) (len : ℕ)
    (h : (renderKState M rnd s data len).segments ≠ s.segments) :
    (s.time + 1) % 5 = 0 ∧
    ∃ b, kBand data len 0 (3/20) = some b ∧
      (renderKState M rnd s data len).segments = ⌊(12:ℚ) + b * 20⌋ := by
  rw [renderKState_segments] at h ⊢
  unfold segUpdate at h ⊢
  cases hb : kBand data len 0 (3/20) with
  | none => rw [hb] at h; exact absurd rfl h
  | some b =>
    rw [hb] at h
    replace h : (if s.segments ≠ ⌊(12:ℚ) + b * 20⌋ ∧ (s.time + 1) % 5 = 0
        then ⌊(12:ℚ) + b * 20⌋ else s.segments) ≠ s.segments := h
    by_cases hcond : s.segments ≠ ⌊(12:ℚ) + b * 20⌋ ∧ (s.time + 1) % 5 = 0
    · refine ⟨hcond.2, b, rfl, ?_⟩
      show (if s.segments ≠ ⌊(12:ℚ) + b * 20⌋ ∧ (s.time + 1) % 5 = 0
        then ⌊(12:ℚ) + b * 20⌋ else s.segments) = ⌊(12:ℚ) + b * 20⌋
      exact if_pos hcond
    · rw [if_neg hcond] at h
      exact absurd rfl h

/-- C8: the segment count starts at 12, is reassigned only to the target
floor(12 + 20·bass), and only on a tick whose (incremented) counter is a
multiple of 5; hence any two ticks that each change the segment count are
at least 5 apart — within any 5 consecutive render ticks the count
changes at most once. -/
theorem segments_update_discipline :
    (∀ (c : Canvas2D) (off : Option Unit) (d : ℚ) (M : MathOracle)
      (rnd : ℕ → ℕ → ℚ), (constructKState c off d M rnd).segments = 12) ∧
    (∀ (M : MathOracle) (rnd : ℕ → ℕ → ℚ) (s : KState) (data : List ℕ) (len : ℕ),
      (renderKState M rnd s data len).segments ≠ s.segments →
      ((s.time + 1) % 5 = 0 ∧
        ∃ b, kBand data len 0 (3/20) = some b ∧
          (renderKState M rnd s data len).segments = ⌊(12:ℚ) + b * 20⌋)) ∧
    (∀ (M : MathOracle) (rnds : ℕ → ℕ → ℕ → ℚ) (bufs : ℕ → List ℕ)
      (lens : ℕ → ℕ) (s : KState) (i j : ℕ), i < j →
      (kTraj M rnds bufs lens s (i + 1)).segments ≠ (kTraj M rnds bufs lens s i).segments →
      (kTraj M rnds bufs lens s (j + 1)).segments ≠ (kTraj M rnds bufs lens s j).segments →
      i + 5 ≤ j) := by
  refine ⟨fun c off d M rnd => rfl, fun M rnd s data len h => segChange_info M rnd s data len h, ?_⟩
  intro M rnds bufs lens s i j hij hci hcj
  have hi := (segChange_info M (rnds i) (kTraj M rnds bufs lens s i) (bufs i) (lens i) hci).1
  have hj := (segChange_info M (rnds j) (kTraj M rnds bufs lens s j) (bufs j) (lens j) hcj).1
  rw [kTraj_time] at hi hj
  omega

/-- A surface large enough that the quality scale is 1/1000, giving an
empty particle pool (floor(100·0.001) = 0), convenient for evaluation. -/
def wideCanvas : Canvas2D := { width := 2073600000, height := 1, ctx2d := some () }

/-- A Kaleidoscope state with an empty particle pool. -/
def sK0 : KState := constructKState wideCanvas (some ()) 1 M0 z2

/-- Buffer stream: loud for the first five ticks, silent afterwards. -/
def bufsW : ℕ → List ℕ := fun k => if k < 5 then List.replicate 20 255 else List.replicate 20 0

/-- Length stream: always 20. -/
def lensW : ℕ → ℕ := fun _ => 20

/-- Random-draw stream: all zero. -/
def rndsW : ℕ → ℕ → ℕ → ℚ := fun _ _ _ => 0

lemma kBand_loud : kBand (List.replicate 20 255) 20 0 (3/20) = some 1 := by
  have h1 : ⌊((20:ℕ):ℚ) * 0⌋ = 0 := by norm_num
  have h2 : ⌊((20:ℕ):ℚ) * (3/20)⌋ = 3 := by norm_num
  have h3 : intRangeSum (List.replicate 20 255) 0 3 = 765 := by decide
  unfold kBand
  rw [h1, h2]
  dsimp only
  rw [h3]
  norm_num [jdiv]

lemma kBand_silent : kBand (List.replicate 20 0) 20 0 (3/20) = some 0 := by
  have h1 : ⌊((20:ℕ):ℚ) * 0⌋ = 0 := by norm_num
  have h2 : ⌊((20:ℕ):ℚ) * (3/20)⌋ = 3 := by norm_num
  have h3 : intRangeSum (List.replicate 20 0) 0 3 = 0 := by decide
  unfold kBand
  rw [h1, h2]
  dsimp only
  rw [h3]
  norm_num [jdiv]

lemma segUpdate_skip (b : JsQ) (t : ℕ) (sg : ℤ) (h : t % 5 ≠ 0) :
    segUpdate b t sg = sg := by
  unfold segUpdate
  cases b with
  | none => rfl
  | some v =>
    show (if sg ≠ ⌊(12:ℚ) + v * 20⌋ ∧ t % 5 = 0 then ⌊(12:ℚ) + v * 20⌋ else sg) = sg
    rw [if_neg]
    rintro ⟨-, h5⟩
    exact h h5

lemma segUpdate_fire (b : ℚ) (t : ℕ) (sg : ℤ) (h5 : t % 5 = 0)
    (hne : sg ≠ ⌊(12:ℚ) + b * 20⌋) :
    segUpdate (some b) t sg = ⌊(12:ℚ) + b * 20⌋ := by
  unfold segUpdate
  show (if sg ≠ ⌊(12:ℚ) + b * 20⌋ ∧ t % 5 = 0 then ⌊(12:ℚ) + b * 20⌋ else sg) =
    ⌊(12:ℚ) + b * 20⌋
  rw [if_pos ⟨hne, h5⟩]

lemma sK0_time : sK0.time = 0 := rfl

lemma kTrajW_segments :
    (kTraj M0 rndsW bufsW lensW sK0 4).segments = 12 ∧
    (kTraj M0 rndsW bufsW lensW sK0 5).segments = 32 ∧
    (kTraj M0 rndsW bufsW lensW sK0 9).segments = 32 ∧
    (kTraj M0 rndsW bufsW lensW sK0 10).segments = 12 := by
  have hstep : ∀ k, (kTraj M0 rndsW bufsW lensW sK0 (k + 1)).segments =
      segUpdate (kBand (bufsW k) 20 (0 : ℚ) (3/20)) (k + 1)
        (kTraj M0 rndsW bufsW lensW sK0 k).segments := by
    intro k
    have := kTraj_segments_step M0 rndsW bufsW lensW sK0 k
    rw [sK0_time] at this
    simpa [lensW] using this
  have hloud : ∀ k, k < 5 → kBand (bufsW k) 20 (0 : ℚ) (3/20) = some 1 := by
    intro k hk
    rw [show bufsW k = List.replicate 20 255 from if_pos hk]
    exact kBand_loud
  have hsilent : ∀ k, ¬ k < 5 → kBand (bufsW k) 20 (0 : ℚ) (3/20) = some 0 := by
    intro k hk
    rw [show bufsW k = List.replicate 20 0 from if_neg hk]
    exact kBand_silent
  have hf32 : (⌊(12:ℚ) + 1 * 20⌋ : ℤ) = 32 := by norm_num
  have hf12 : (⌊(12:ℚ) + 0 * 20⌋ : ℤ) = 12 := by norm_num
  have h0 : (kTraj M0 rndsW bufsW lensW sK0 0).segments = 12 := rfl
  have h1 : (kTraj M0 rndsW bufsW lensW sK0 1).segments = 12 := by
    rw [hstep 0, hloud 0 (by norm_num), segUpdate_skip _ _ _ (by norm_num), h0]
  have h2 : (kTraj M0 rndsW bufsW lensW sK0 2).segments = 12 := by
    rw [hstep 1, hloud 1 (by norm_num), segUpdate_skip _ _ _ (by norm_num), h1]
  have h3 : (kTraj M0 rndsW bufsW lensW sK0 3).segments = 12 := by
    rw [hstep 2, hloud 2 (by norm_num), segUpdate_skip _ _ _ (by norm_num), h2]
  have h4 : (kTraj M0 rndsW bufsW lensW sK0 4).segments = 12 := by
    rw [hstep 3, hloud 3 (by norm_num), segUpdate_skip _ _ _ (by norm_num), h3]
  have h5 : (kTraj M0 rndsW bufsW lensW sK0 5).segments = 32 := by
    rw [hstep 4, hloud 4 (by norm_num), h4, segUpdate_fire 1 5 12 (by norm_num)
      (by rw [hf32]; norm_num), hf32]
  have h6 : (kTraj M0 rndsW bufsW lensW sK0 6).segments = 32 := by
    rw [hstep 5, hsilent 5 (by norm_num), segUpdate_skip _ _ _ (by norm_num), h5]
  have h7 : (kTraj M0 rndsW bufsW lensW sK0 7).segments = 32 := by
    rw [hstep 6, hsilent 6 (by norm_num), segUpdate_skip _ _ _ (by norm_num), h6]
  have h8 : (kTraj M0 rndsW bufsW lensW sK0 8).segments = 32 := by
    rw [hstep 7, hsilent 7 (by norm_num), segUpdate_skip _ _ _ (by norm_num), h7]
  have h9 : (kTraj M0 rndsW bufsW lensW sK0 9).segments = 32 := by
    rw [hstep 8, hsilent 8 (by norm_num), segUpdate_skip _ _ _ (by norm_num), h8]
  have h10 : (kTraj M0 rndsW bufsW lensW sK0 10).segments = 12 := by
    rw [hstep 9, hsilent 9 (by norm_num), h9, segUpdate_fire 0 10 32 (by norm_num)
      (by rw [hf12]; norm_num), hf12]
  exact ⟨h4, h5, h9, h10⟩

/-- C8 witness: a concrete run whose segment count changes at ticks 5 and
10, instantiating all three parts of the theorem with their hypotheses
discharged. -/
theorem segments_update_discipline_witness :
    (constructKState okCanvas (some ()) 1 M0 z2).segments = 12 ∧
    ((((kTraj M0 rndsW bufsW lensW sK0 4).time + 1) % 5 = 0 ∧
      ∃ b, kBand (bufsW 4) (lensW 4) 0 (3/20) = some b ∧
        (kTraj M0 rndsW bufsW lensW sK0 5).segments = ⌊(12:ℚ) + b * 20⌋) ∧
      4 + 5 ≤ 9) := by
  obtain ⟨h4, h5, h9, h10⟩ := kTrajW_segments
  have hchange4 : (kTraj M0 rndsW bufsW lensW sK0 5).segments ≠
      (kTraj M0 rndsW bufsW lensW sK0 4).segments := by
    rw [h4, h5]; norm_num
  have hchange9 : (kTraj M0 rndsW bufsW lensW sK0 10).segments ≠
      (kTraj M0 rndsW bufsW lensW sK0 9).segments := by
    rw [h9, h10]; norm_num
  exact ⟨segments_update_discipline.1 okCanvas (some ()) 1 M0 z2,
    segments_update_discipline.2.1 M0 (rndsW 4) (kTraj M0 rndsW bufsW lensW sK0 4)
      (bufsW 4) (lensW 4) hchange4,
    segments_update_discipline.2.2 M0 rndsW bufsW lensW sK0 4 9 (by norm_num)
      hchange4 hchange9⟩

/-! ## Claim C6 -/

/-- Per-tick environment of one particle update: oracle, the two audio
metrics, the wedge angle and radius bound, and the six random draws a
respawn would consume. -/
structure KTickEnv where
  M : MathOracle
  audio : JsQ
  bass : JsQ
  segAngle : ℚ
  maxR : ℚ
  r1 : ℚ
  r2 : ℚ
  r3 : ℚ
  r4 : ℚ
  r5 : ℚ
  r6 : ℚ

/-- One particle update under an environment. -/
def kStep (e : KTickEnv) (p : KParticle) : KParticle × Bool :=
  updateParticleFull e.M e.audio e.bass e.segAngle e.maxR e.r1 e.r2 e.r3 e.r4 e.r5 e.r6 p

/-- The particle after k updates under a stream of environments. -/
def particleTraj (env : ℕ → KTickEnv) (p : KParticle) : ℕ → KParticle
  | 0 => p
  | k + 1 => (kStep (env k) (particleTraj env p k)).1

lemma updFull_flag (M : MathOracle) (audio bass : JsQ) (segAngle maxR r1 r2 r3 r4 r5 r6 : ℚ)
    (p : KParticle) :
    (updateParticleFull M audio bass segAngle maxR r1 r2 r3 r4 r5 r6 p).2 =
      respawnCondB M audio bass maxR p := by
  unfold updateParticleFull
  by_cases hc : respawnCondB M audio bass maxR p = true
  · rw [hc]; simp
  · rw [Bool.not_eq_true] at hc
    rw [hc]; simp

lemma updFull_life_no_respawn (M : MathOracle) (audio bass : JsQ)
    (segAngle maxR r1 r2 r3 r4 r5 r6 : ℚ) (p : KParticle)
    (h : respawnCondB M audio bass maxR p = false) :
    (updateParticleFull M audio bass segAngle maxR r1 r2 r3 r4 r5 r6 p).1.life =
      p.life - 1/200 := by
  unfold updateParticleFull
  rw [h]
  simp

lemma updFull_respawn_fields (M : MathOracle) (audio bass : JsQ)
    (segAngle maxR r1 r2 r3 r4 r5 r6 : ℚ) (p : KParticle)
    (h : respawnCondB M audio bass maxR p = true) :
    (updateParticleFull M audio bass segAngle maxR r1 r2 r3 r4 r5 r6 p).1 =
      { x := jmul (M.cos (some (r1 * segAngle))) (some (r2 * 50))
        y := jmul (M.sin (some (r1 * segAngle))) (some (r2 * 50))
        vx := (r3 - 1/2) * 2
        vy := (r4 - 1/2) * 2
        size := jadd (some (5 + r6 * 15)) (jmul bass (some 10))
        hue := r5 * 360
        life := 1 } := by
  unfold updateParticleFull
  rw [h]
  rfl

lemma respawnCondB_false_life (M : MathOracle) (audio bass : JsQ) (maxR : ℚ)
    (p : KParticle) (h : respawnCondB M audio bass maxR p = false) :
    ¬ (p.life - 1/200 ≤ 0) := by
  unfold respawnCondB at h
  rw [Bool.or_eq_false_iff] at h
  exact of_decide_eq_false h.1

lemma particleTraj_life (env : ℕ → KTickEnv) (p : KParticle) (l : ℚ)
    (hl : p.life = l) (k : ℕ)
    (hno : ∀ j, j < k → (kStep (env j) (particleTraj env p j)).2 = false) :
    (particleTraj env p k).life = l - k / 200 := by
  induction k with
  | zero => simpa using hl
  | succ n ih =>
    have hstepn : (kStep (env n) (particleTraj env p n)).2 = false :=
      hno n (Nat.lt_succ_self n)
    have hcond : respawnCondB (env n).M (env n).audio (env n).bass (env n).maxR
        (particleTraj env p n) = false := by
      rw [← updFull_flag (env n).M (env n).audio (env n).bass (env n).segAngle
        (env n).maxR (env n).r1 (env n).r2 (env n).r3 (env n).r4 (env n).r5 (env n).r6
        (particleTraj env p n)]
      exact hstepn
    have hlife : (particleTraj env p (n + 1)).life =
        (particleTraj env p n).life - 1/200 :=
      updFull_life_no_respawn _ _ _ _ _ _ _ _ _ _ _ _ hcond
    rw [hlife, ih (fun j hj => hno j (Nat.lt_succ_of_lt hj))]
    push_cast
    ring

/-- C6: (i) when the respawn branch does not fire, a render tick
decreases a particle's life by exactly 0.005 = 1/200; (ii) when it fires
(life ≤ 0 after decay, or radial distance beyond 0.6×maxRadius), the
particle is reseeded with angle r1·wedgeAngle ∈ [0, wedgeAngle), radius
r2·50 ∈ [0, 50), velocity components (r·−0.5)·2 ∈ [−1, 1], life exactly
1, hue r5·360 ∈ [0, 360), and size 5 + r6·15 + 10·bass; (iii) every
particle with life ≤ 1 respawns within 200 ticks. -/
theorem particle_lifecycle :
    (∀ (M : MathOracle) (audio bass : JsQ) (segAngle maxR r1 r2 r3 r4 r5 r6 : ℚ)
      (p : KParticle),
      (updateParticleFull M audio bass segAngle maxR r1 r2 r3 r4 r5 r6 p).2 = false →
      (updateParticleFull M audio bass segAngle maxR r1 r2 r3 r4 r5 r6 p).1.life =
        p.life - 1/200) ∧
    (∀ (M : MathOracle) (audio : JsQ) (b : ℚ) (segAngle maxR r1 r2 r3 r4 r5 r6 : ℚ)
      (p : KParticle),
      (updateParticleFull M audio (some b) segAngle maxR r1 r2 r3 r4 r5 r6 p).2 = true →
      0 ≤ r1 → r1 < 1 → 0 ≤ r2 → r2 < 1 → 0 ≤ r3 → r3 ≤ 1 → 0 ≤ r4 → r4 ≤ 1 →
      0 ≤ r5 → r5 < 1 → 0 < segAngle →
      ((updateParticleFull M audio (some b) segAngle maxR r1 r2 r3 r4 r5 r6 p).1.x =
          jmul (M.cos (some (r1 * segAngle))) (some (r2 * 50)) ∧
        0 ≤ r1 * segAngle ∧ r1 * segAngle < segAngle ∧
        (updateParticleFull M audio (some b) segAngle maxR r1 r2 r3 r4 r5 r6 p).1.y =
          jmul (M.sin (some (r1 * segAngle))) (some (r2 * 50)) ∧
        0 ≤ r2 * 50 ∧ r2 * 50 < 50 ∧
        (updateParticleFull M audio (some b) segAngle maxR r1 r2 r3 r4 r5 r6 p).1.vx =
          (r3 - 1/2) * 2 ∧
        -1 ≤ (r3 - 1/2) * 2 ∧ (r3 - 1/2) * 2 ≤ 1 ∧
        (updateParticleFull M audio (some b) segAngle maxR r1 r2 r3 r4 r5 r6 p).1.vy =
          (r4 - 1/2) * 2 ∧
        -1 ≤ (r4 - 1/2) * 2 ∧ (r4 - 1/2) * 2 ≤ 1 ∧
        (updateParticleFull M audio (some b) segAngle maxR r1 r2 r3 r4 r5 r6 p).1.life = 1 ∧
        (updateParticleFull M audio (some b) segAngle maxR r1 r2 r3 r4 r5 r6 p).1.hue =
          r5 * 360 ∧
        0 ≤ r5 * 360 ∧ r5 * 360 < 360 ∧
        (updateParticleFull M audio (some b) segAngle maxR r1 r2 r3 r4 r5 r6 p).1.size =
          some (5 + r6 * 15 + 10 * b))) ∧
    (∀ (env : ℕ → KTickEnv) (p : KParticle) (l : ℚ),
      p.life = l → l ≤ 1 →
      ∃ k, k < 200 ∧ (kStep (env k) (particleTraj env p k)).2 = true) := by
  refine ⟨?_, ?_, ?_⟩
  · intro M audio bass segAngle maxR r1 r2 r3 r4 r5 r6 p h
    rw [updFull_flag] at h
    exact updFull_life_no_respawn M audio bass segAngle maxR r1 r2 r3 r4 r5 r6 p h
  · intro M audio b segAngle maxR r1 r2 r3 r4 r5 r6 p h h1 h2 h3 h4 h5 h6 h7 h8 h9 h10 hseg
    rw [updFull_flag] at h
    have hf := updFull_respawn_fields M audio (some b) segAngle maxR r1 r2 r3 r4 r5 r6 p h
    rw [hf]
    refine ⟨rfl, mul_nonneg h1 hseg.le, ?_, rfl, mul_nonneg h3 (by norm_num), ?_,
      rfl, by linarith, by linarith, rfl, by linarith, by linarith, rfl, rfl,
      mul_nonneg h9 (by norm_num), by linarith, ?_⟩
    · calc r1 * segAngle < 1 * segAngle := by
            exact mul_lt_mul_of_pos_right h2 hseg
        _ = segAngle := one_mul segAngle
    · linarith
    · show jadd (some (5 + r6 * 15)) (jmul (some b) (some 10)) = some (5 + r6 * 15 + 10 * b)
      unfold jadd jmul
      norm_num
      ring
  · intro env p l hl hle
    by_contra hno
    push_neg at hno
    have hno2 : ∀ j, j < 200 → (kStep (env j) (particleTraj env p j)).2 = false := by
      intro j hj
      have := hno j hj
      exact Bool.not_eq_true _ ▸ (by simpa using this)
    have h199 : (particleTraj env p 199).life = l - 199 / 200 :=
      particleTraj_life env p l hl 199 (fun j hj => hno2 j (by omega))
    have hcond : respawnCondB (env 199).M (env 199).audio (env 199).bass
        (env 199).maxR (particleTraj env p 199) = false := by
      rw [← updFull_flag (env 199).M (env 199).audio (env 199).bass (env 199).segAngle
        (env 199).maxR (env 199).r1 (env 199).r2 (env 199).r3 (env 199).r4 (env 199).r5
        (env 199).r6 (particleTraj env p 199)]
      exact hno2 199 (by norm_num)
    have := respawnCondB_false_life _ _ _ _ _ hcond
    rw [h199] at this
    apply this
    linarith

/-- A live particle at the origin. -/
def p0 : KParticle :=
  { x := some 0, y := some 0, vx := 0, vy := 0, size := some 1, hue := 0, life := 1 }

/-- A particle whose life has run out. -/
def pDead : KParticle :=
  { x := some 0, y := some 0, vx := 0, vy := 0, size := some 1, hue := 0, life := 0 }

/-- A concrete tick environment. -/
def e0 : KTickEnv :=
  { M := M0, audio := some 0, bass := some 0, segAngle := 1, maxR := 100,
    r1 := 0, r2 := 0, r3 := 0, r4 := 0, r5 := 0, r6 := 0 }

lemma flagP0 : respawnCondB M0 (some 0) (some 0) 100 p0 = false := by
  unfold respawnCondB p0 M0
  dsimp only
  rw [Bool.or_eq_false_iff]
  constructor
  · rw [decide_eq_false_iff_not]
    norm_num
  · show jgt (some 0) (some (100 * (3/5))) = false
    unfold jgt
    rw [decide_eq_false_iff_not]
    norm_num

lemma flagPDead : respawnCondB M0 (some 0) (some 0) 100 pDead = true := by
  unfold respawnCondB pDead M0
  dsimp only
  rw [Bool.or_eq_true]
  left
  rw [decide_eq_true_eq]
  norm_num

/-- C6 witness: a live particle at the origin loses exactly 1/200 life in
one no-respawn tick; a dead particle respawns with life 1; and the live
particle is guaranteed a respawn within 200 ticks of the constant
environment. -/
theorem particle_lifecycle_witness :
    (updateParticleFull M0 (some 0) (some 0) 1 100 0 0 0 0 0 0 p0).1.life =
      p0.life - 1/200 ∧
    (updateParticleFull M0 (some 0) (some 0) 1 100 0 0 0 0 0 0 pDead).1.life = 1 ∧
    (∃ k, k < 200 ∧
      (kStep ((fun _ => e0) k) (particleTraj (fun _ => e0) p0 k)).2 = true) :=
  ⟨particle_lifecycle.1 M0 (some 0) (some 0) 1 100 0 0 0 0 0 0 p0
      (by rw [updFull_flag]; exact flagP0),
    (particle_lifecycle.2.1 M0 (some 0) 0 1 100 0 0 0 0 0 0 pDead
      (by rw [updFull_flag]; exact flagPDead)
      (by norm_num) (by norm_num) (by norm_num) (by norm_num) (by norm_num)
      (by norm_num) (by norm_num) (by norm_num) (by norm_num) (by norm_num)
      (by norm_num)).2.2.2.2.2.2.2.2.2.2.2.2.1,
    particle_lifecycle.2.2 (fun _ => e0) p0 1 rfl (by norm_num)⟩

/-! ## Claim C2 -/

/-- Iterated Chemical renders with a fixed buffer. -/
def cTraj (M : MathOracle) (data : List ℕ) (len : ℕ) (s : CState) : ℕ → CState
  | 0 => s
  | k + 1 => renderCState M (cTraj M data len s k) data len

lemma renderCState_qs (M : MathOracle) (s : CState) (data : List ℕ) (len : ℕ) :
    (renderCState M s data len).qualityScale = s.qualityScale := rfl

lemma cTraj_duration (M : MathOracle) (data : List ℕ) (len : ℕ) (s : CState) :
    ∀ k, (cTraj M data len s k).energyLevelDuration = s.energyLevelDuration := by
  intro k
  induction k with
  | zero => rfl
  | succ n ih => rw [show cTraj M data len s (n + 1) =
      renderCState M (cTraj M data len s n) data len from rfl,
      renderCState_duration, ih]

lemma cTraj_electrons (M : MathOracle) (data : List ℕ) (len : ℕ) (s : CState) :
    ∀ k, (cTraj M data len s k).electrons.length = s.electrons.length := by
  intro k
  induction k with
  | zero => rfl
  | succ n ih => rw [show cTraj M data len s (n + 1) =
      renderCState M (cTraj M data len s n) data len from rfl,
      renderCState_electrons_length, ih]

lemma cTraj_qs (M : MathOracle) (data : List ℕ) (len : ℕ) (s : CState) :
    ∀ k, (cTraj M data len s k).qualityScale = s.qualityScale := by
  intro k
  induction k with
  | zero => rfl
  | succ n ih => rw [show cTraj M data len s (n + 1) =
      renderCState M (cTraj M data len s n) data len from rfl,
      renderCState_qs, ih]

lemma getD_replicate (v : ℕ) : ∀ (k i : ℕ), i < k → (List.replicate k v).getD i 0 = v := by
  intro k
  induction k with
  | zero => intro i h; omega
  | succ n ih =>
    intro i h
    cases i with
    | zero => rfl
    | succ j =>
      rw [List.replicate_succ, List.getD_cons_succ]
      exact ih j (by omega)

lemma foldl_getD_replicate (v : ℕ) : ∀ (n : ℕ), ∀ (k a : ℕ), n ≤ k →
    (List.range n).foldl (fun acc i => acc + (List.replicate k v).getD i 0) a = a + n * v := by
  intro n
  induction n with
  | zero => intro k a h; simp
  | succ m ih =>
    intro k a h
    rw [List.range_succ, List.foldl_append, ih k a (by omega)]
    simp only [List.foldl_cons, List.foldl_nil]
    rw [getD_replicate v k m (by omega)]
    ring

lemma overallC_const128 : overallC (List.replicate 1024 128) 1024 = some (128/255) := by
  unfold overallC
  rw [foldl_getD_replicate 128 1024 1024 0 le_rfl]
  unfold jdiv jmul
  norm_num

/-- The timer/level step under constant overall intensity 128/255. -/
def tlStep : ℚ × ℕ → ℚ × ℕ := levelTimerStep (some (128/255)) 300

lemma tl_threshold :
    jdiv (some 300) (jadd (some 1) (jmul (some (128/255)) (some 2))) = some (76500/511) := by
  unfold jdiv jadd jmul
  norm_num

lemma lts_step_small (k : ℕ) (l : ℕ) (hk : k + 1 ≤ 149) :
    tlStep ((k : ℚ), l) = ((k : ℚ) + 1, l) := by
  have hk149 : (k : ℚ) + 1 ≤ 149 := by
    have : ((k + 1 : ℕ) : ℚ) ≤ (149 : ℕ) := by exact_mod_cast hk
    push_cast at this
    linarith
  unfold tlStep levelTimerStep
  dsimp only
  have h1 : ¬ ((300 : ℚ) ≤ (k : ℚ) + 1) := by linarith
  rw [if_neg h1, tl_threshold]
  have hc : jge (some ((k : ℚ) + 1)) (some (76500/511)) = false := by
    unfold jge
    rw [decide_eq_false_iff_not]
    intro habs
    have h149 : (149 : ℚ) < 76500/511 := by norm_num
    linarith
  rw [hc]
  simp

lemma lts_step_fire (l : ℕ) : tlStep ((149 : ℚ), l) = (0, l % 6 + 1) := by
  unfold tlStep levelTimerStep
  dsimp only
  have h1 : ¬ ((300 : ℚ) ≤ (149 : ℚ) + 1) := by norm_num
  rw [if_neg h1, tl_threshold]
  have hc : jge (some ((149 : ℚ) + 1)) (some (76500/511)) = true := by
    unfold jge
    rw [decide_eq_true_eq]
    norm_num
  rw [hc]
  simp

lemma tl_iter_low (l : ℕ) : ∀ k, k ≤ 149 → tlStep^[k] (0, l) = ((k : ℚ), l) := by
  intro k
  induction k with
  | zero => intro h; simp
  | succ m ih =>
    intro h
    rw [Function.iterate_succ_apply', ih (by omega)]
    have := lts_step_small m l (by omega)
    rw [this]
    push_cast
    rfl

lemma tl_iter_150 (l : ℕ) : tlStep^[150] (0, l) = (0, l % 6 + 1) := by
  rw [show (150 : ℕ) = 149 + 1 from rfl, Function.iterate_succ_apply',
    tl_iter_low l 149 le_rfl]
  exact lts_step_fire l

lemma tl_iter_300 : tlStep^[300] ((0 : ℚ), 1) = (0, 3) := by
  rw [show (300 : ℕ) = 150 + 150 from rfl, Function.iterate_add_apply, tl_iter_150 1]
  rw [show (1 % 6 + 1 : ℕ) = 2 from by norm_num, tl_iter_150 2]

lemma cTraj_tl (M : MathOracle) (s : CState) (hdur : s.energyLevelDuration = 300) :
    ∀ k, ((cTraj M (List.replicate 1024 128) 1024 s k).energyLevelTimer,
      (cTraj M (List.replicate 1024 128) 1024 s k).currentEnergyLevel) =
        tlStep^[k] (s.energyLevelTimer, s.currentEnergyLevel) := by
  intro k
  induction k with
  | zero => rfl
  | succ n ih =>
    rw [Function.iterate_succ_apply', ← ih]
    show ((renderCState M (cTraj M (List.replicate 1024 128) 1024 s n)
        (List.replicate 1024 128) 1024).energyLevelTimer,
      (renderCState M (cTraj M (List.replicate 1024 128) 1024 s n)
        (List.replicate 1024 128) 1024).currentEnergyLevel) = _
    rw [renderCState_timer, renderCState_level, cTraj_duration M _ _ s n, hdur,
      overallC_const128]
    rfl

lemma okCanvas_qs_one :
    (if (1000 : ℚ) * 1000 > 2073600
      then min ((7:ℚ)/10) (2073600 / ((1000 : ℚ) * 1000)) else 1) = 1 := by
  norm_num

lemma construct_okCanvas_qs (rA rP rS : ℕ → ℚ) :
    (constructCState okCanvas 1 rA rP rS).qualityScale = 1 := by
  show (if (1000 : ℚ) * 1000 > 2073600
    then min ((7:ℚ)/10) (2073600 / ((1000 : ℚ) * 1000)) else 1) = 1
  exact okCanvas_qs_one

lemma construct_okCanvas_electrons (rA rP rS : ℕ → ℚ) :
    (constructCState okCanvas 1 rA rP rS).electrons.length = 50 := by
  show (initializeElectrons (if (1000 : ℚ) * 1000 > 2073600
    then min ((7:ℚ)/10) (2073600 / ((1000 : ℚ) * 1000)) else 1) rA rP rS).length = 50
  rw [initializeElectrons_length, okCanvas_qs_one]
  norm_num
  rfl

lemma run128_level (M : MathOracle) (rA rP rS : ℕ → ℚ) :
    ∀ k, k ≤ 300 →
    (cTraj M (List.replicate 1024 128) 1024 (constructCState okCanvas 1 rA rP rS) k).currentEnergyLevel =
      (if k < 150 then 1 else if k < 300 then 2 else 3) := by
  intro k hk
  have hpair := cTraj_tl M (constructCState okCanvas 1 rA rP rS) rfl k
  have hinit : ((constructCState okCanvas 1 rA rP rS).energyLevelTimer,
      (constructCState okCanvas 1 rA rP rS).currentEnergyLevel) = ((0 : ℚ), 1) := rfl
  rw [hinit] at hpair
  rcases lt_or_le k 150 with h150 | h150
  · rw [if_pos h150]
    have := tl_iter_low 1 k (by omega)
    rw [this, Prod.mk.injEq] at hpair
    exact hpair.2
  · rcases lt_or_le k 300 with h300 | h300
    · rw [if_neg (by omega : ¬ k < 150), if_pos h300]
      obtain ⟨j, rfl⟩ : ∃ j, k = j + 150 := ⟨k - 150, by omega⟩
      rw [Function.iterate_add_apply, tl_iter_150 1] at hpair
      have h2 : (1 % 6 + 1 : ℕ) = 2 := by norm_num
      rw [h2] at hpair
      rw [tl_iter_low 2 j (by omega), Prod.mk.injEq] at hpair
      exact hpair.2
    · have hk300 : k = 300 := by omega
      subst hk300
      rw [if_neg (by omega : ¬ (300:ℕ) < 150), if_neg (by omega : ¬ (300:ℕ) < 300)]
      rw [tl_iter_300, Prod.mk.injEq] at hpair
      exact hpair.2

/-- C2 counterexample: on a 1000×1000 surface fed the constant-128 buffer
of length 1024, the energy level is already 2 after 150 render() calls —
the audio-adjusted duration 300/(1 + 2·128/255) ≈ 149.7 fires at tick
150, so the claimed single transition at tick 300 is false (by tick 300
the level has advanced twice, to 3). -/
theorem chem_run300_counterexample :
    (cTraj M0 (List.replicate 1024 128) 1024 (constructCState okCanvas 1 z1 z1 z1)
      150).currentEnergyLevel = 2 := by
  have h := run128_level M0 z1 z1 z1 150 (by norm_num)
  rw [show (if (150:ℕ) < 150 then 1 else if (150:ℕ) < 300 then 2 else 3) = 2
    from by norm_num] at h
  exact h

/-- C2 amended: with qualityScale 1 on the 1000×1000 surface, the
constant-128 run transitions twice — 1→2 at tick 150 and 2→3 at tick 300
(level 1 for ticks 0..149, level 2 for 150..299, level 3 at 300) — while
the electron pool size stays exactly 50 at every tick. -/
theorem chem_run300_amended (M : MathOracle) (rA rP rS : ℕ → ℚ) (k : ℕ) (hk : k ≤ 300) :
    (cTraj M (List.replicate 1024 128) 1024 (constructCState okCanvas 1 rA rP rS)
        k).currentEnergyLevel = (if k < 150 then 1 else if k < 300 then 2 else 3) ∧
    (cTraj M (List.replicate 1024 128) 1024 (constructCState okCanvas 1 rA rP rS)
        k).electrons.length = 50 ∧
    (cTraj M (List.replicate 1024 128) 1024 (constructCState okCanvas 1 rA rP rS)
        k).qualityScale = 1 := by
  refine ⟨run128_level M rA rP rS k hk, ?_, ?_⟩
  · rw [cTraj_electrons]
    exact construct_okCanvas_electrons rA rP rS
  · rw [cTraj_qs]
    exact construct_okCanvas_qs rA rP rS

/-- C2 amended witness: the run evaluated at tick 300 — level 3, fifty
electrons, quality scale 1. -/
theorem chem_run300_amended_witness :
    ((cTraj M0 (List.replicate 1024 128) 1024 (constructCState okCanvas 1 z1 z1 z1)
        300).currentEnergyLevel = (if 300 < 150 then 1 else if 300 < 300 then 2 else 3) ∧
      (cTraj M0 (List.replicate 1024 128) 1024 (constructCState okCanvas 1 z1 z1 z1)
        300).electrons.length = 50 ∧
      (cTraj M0 (List.replicate 1024 128) 1024 (constructCState okCanvas 1 z1 z1 z1)
        300).qualityScale = 1) :=
  chem_run300_amended M0 z1 z1 z1 300 (by norm_num)
